import Mathlib

/-!
# Cart / product store of `CICD_ex02`

A shallow embedding of `product.go`, `cart.go` and the handlers of `app.go`
that the cart workflow goes through.  The relational store is a record of
three tables kept as lists of rows in insertion order, together with the two
id sequences.  Every method of `*Cart` becomes a function from the store and
the cart value to the new store, the new cart value and the returned error.

The type `P` of prices is a parameter: the program computes with `float64`
and its addition, and everything below holds for any type with an addition, a
zero and a decidable equality.  Where a statement speaks of exact decimals it
is stated for `ℚ`.  Timestamps are natural numbers supplied by the caller in
place of `time.Now()`.
-/

set_option autoImplicit false

variable {P : Type}

/-! ## Data model -/

/-- The struct `Product` of `product.go`; also a row of table `products`. -/
structure Product (P : Type) where
  ID : Int
  Name : String
  Price : P
deriving DecidableEq

/-- A row of table `carts`. -/
structure CartRow where
  id : Int
  created_timestamp : Nat
  modification_timestamp : Nat
  checked_out : Bool
deriving DecidableEq

/-- The struct `Cart` of `cart.go`. -/
structure Cart (P : Type) where
  ID : Int
  CreatedTimestamp : Nat
  ModificationTimestamp : Nat
  CheckedOut : Bool
  Products : List (Product P)
deriving DecidableEq

/-- The errors the store functions return. -/
inductive Err where
  /-- The error `sql.ErrNoRows`. -/
  | noRows
  /-- The error `fmt.Errorf("Cart already checked out!")`. -/
  | alreadyCheckedOut
  /-- The error `fmt.Errorf("Cart with ID %d does not exist", c.ID)`. -/
  | cartDoesNotExist (id : Int)
  /-- The error of a statement PostgreSQL rejects, with the server's message. -/
  | rejected (msg : String)
  /-- Any other error of the driver, such as a lost connection, with its text. -/
  | driver (text : String)
deriving DecidableEq

/-- The text of `err.Error()`; the driver `lib/pq` puts `pq: ` before the message
of the server. -/
def Err.Error : Err → String
  | .noRows => "sql: no rows in result set"
  | .alreadyCheckedOut => "Cart already checked out!"
  | .cartDoesNotExist id => "Cart with ID " ++ toString id ++ " does not exist"
  | .rejected msg => "pq: " ++ msg
  | .driver text => text

/-- Modelled from the spec: the table declarations are not part of the source.
The store holds `products(id, name, price)`,
`carts(id, created_timestamp, modification_timestamp, checked_out)` and the join
table `cart_products(cart_id, product_id)` whose pairs are unique.  The two id
columns are filled from sequences; the program never supplies an id itself, so
an insert takes the current sequence value and advances the sequence.

The field `products_read_err` is the error, if any, with which the driver fails
the read of the product rows in `getProductsByIDList`; it is `none` when the
store answers that query. -/
structure DB (P : Type) where
  products : List (Product P)
  products_id_seq : Int
  carts : List CartRow
  carts_id_seq : Int
  cart_products : List (Int × Int)
  products_read_err : Option Err
deriving DecidableEq

/-! ## `product.go` -/

/-- The function `getProductsByIDList`: `SELECT * FROM products WHERE id IN (ids)`,
guarded by `len(ids) > 0`; an error of `db.Query` is returned. -/
def getProductsByIDList (db : DB P) (ids : List Int) : Except Err (List (Product P)) :=
  if ids.length > 0 then
    match db.products_read_err with
    | some err => .error err
    | none => .ok (db.products.filter (fun p => decide (p.ID ∈ ids)))
  else
    .ok []

/-- The row `QueryRow` scans for
`SELECT id FROM Products WHERE id=$1 OR (name=$2 AND price=$3)`: the first
matching row of the table. -/
def selectIdOrNamePrice [DecidableEq P] (rows : List (Product P)) (p : Product P) : Option (Product P) :=
  rows.find? (fun r => decide (r.ID = p.ID ∨ (r.Name = p.Name ∧ r.Price = p.Price)))

/-- The statement `INSERT INTO Products(name, price) VALUES($1, $2) RETURNING id`. -/
def insertProductRow (db : DB P) (name : String) (price : P) : DB P × Int :=
  ({ db with
      products := db.products ++ [{ ID := db.products_id_seq, Name := name, Price := price }],
      products_id_seq := db.products_id_seq + 1 },
   db.products_id_seq)

/-- The loop of `insertOrGetProducts`, with the slice `ids` built so far. -/
def insertOrGetLoop [DecidableEq P] (db : DB P) (ids : List Int) :
    List (Product P) → DB P × Except Err (List Int)
  | [] => (db, .ok ids)
  | p :: rest =>
    match selectIdOrNamePrice db.products p with
    | some r => insertOrGetLoop db (ids ++ [r.ID]) rest
    | none =>
      let (db1, id) := insertProductRow db p.Name p.Price
      insertOrGetLoop db1 (ids ++ [id]) rest

/-- The function `insertOrGetProducts(db, products)`. -/
def insertOrGetProducts [DecidableEq P] (db : DB P) (products : List (Product P)) :
    DB P × Except Err (List Int) :=
  insertOrGetLoop db [] products

/-- The function `getProducts(db, start, count)`:
`SELECT * FROM Products ORDER BY id LIMIT $1 OFFSET $2`; PostgreSQL rejects a
negative `LIMIT` or `OFFSET`. -/
def getProducts (db : DB P) (start count : Int) : Except Err (List (Product P)) :=
  if count < 0 then .error (.rejected "LIMIT must not be negative")
  else if start < 0 then .error (.rejected "OFFSET must not be negative")
  else
    .ok (((db.products.insertionSort (fun a b => a.ID ≤ b.ID)).drop start.toNat).take count.toNat)

/-! ## `cart.go` -/

/-- The statement `INSERT INTO cart_products ... ON CONFLICT DO NOTHING` for the pairs
`(cartID, id)`: a pair already in the table is skipped. -/
def insertLinksDoNothing (links : List (Int × Int)) (cartID : Int) (ids : List Int) :
    List (Int × Int) :=
  ids.foldl (fun t id => if (cartID, id) ∈ t then t else t ++ [(cartID, id)]) links

/-- The method `c.linkCartToProducts(db, productIds)`. -/
def Cart.linkCartToProducts (db : DB P) (c : Cart P) (productIds : List Int) :
    DB P × Option Err :=
  if productIds.length > 0 then
    ({ db with cart_products := insertLinksDoNothing db.cart_products c.ID productIds }, none)
  else
    (db, none)

/-- The method `c.getCart(db)`: the cart row, then the linked ids, then the products.
The cart value keeps the fields scanned from the row when the read of the
products fails. -/
def Cart.getCart (db : DB P) (c : Cart P) : Cart P × Option Err :=
  match db.carts.find? (fun r => decide (r.id = c.ID)) with
  | none => (c, some .noRows)
  | some r =>
    let c1 : Cart P := { c with
      ID := r.id, CreatedTimestamp := r.created_timestamp,
      CheckedOut := r.checked_out, ModificationTimestamp := r.modification_timestamp }
    let idSet := (db.cart_products.filter (fun l => decide (l.1 = c1.ID))).map (fun l => l.2)
    match getProductsByIDList db idSet with
    | .error e => (c1, some e)
    | .ok products => ({ c1 with Products := products }, none)

/-- The message with which PostgreSQL rejects the link statement of `createCart`
for `n` products.  The source hands the whole list of pairs to the variadic
`Vals` as one row, so the statement has one row of `n` tuples for the two
columns `cart_id` and `product_id`. -/
def createCartLinkMessage (n : Nat) : String :=
  if n = 1 then "INSERT has more target columns than expressions"
  else if n = 2 then "column \"cart_id\" is of type integer but expression is of type record"
  else "INSERT has more expressions than target columns"

/-- The method `c.createCart(db)`; `INSERT INTO carts DEFAULT VALUES RETURNING id`
gives an open cart with both timestamps set to the current time.  With products
in the cart value the link statement follows and is rejected; the cart row
stays, the two statements are not in one transaction. -/
def Cart.createCart (db : DB P) (c : Cart P) (now : Nat) : DB P × Cart P × Option Err :=
  if !c.CheckedOut then
    let db1 : DB P := { db with
      carts := db.carts ++ [{ id := db.carts_id_seq, created_timestamp := now,
                              modification_timestamp := now, checked_out := false }],
      carts_id_seq := db.carts_id_seq + 1 }
    let c1 : Cart P := { c with ID := db.carts_id_seq }
    if c1.Products.length > 0 then
      (db1, c1, some (.rejected (createCartLinkMessage c1.Products.length)))
    else
      (db1, c1, none)
  else
    (db, c, some .alreadyCheckedOut)

/-- The method `c.getOrCreate(db)`. -/
def Cart.getOrCreate (db : DB P) (c : Cart P) (now : Nat) : DB P × Cart P × Option Err :=
  if c.ID = -1 then
    c.createCart db now
  else
    match c.getCart db with
    | (c1, some _) => c1.createCart db now
    | (c1, none) => (db, c1, none)

/-- The method `c.updateCart(db)`. -/
def Cart.updateCart (db : DB P) (c : Cart P) (now : Nat) : DB P × Cart P × Option Err :=
  match db.carts.find? (fun r => decide (r.id = c.ID)) with
  | none => (db, c, some (.cartDoesNotExist c.ID))
  | some r =>
    let c1 : Cart P := { c with ID := r.id }
    let db1 : DB P := { db with
      carts := db.carts.map (fun row =>
        if row.id = c1.ID then
          { row with checked_out := c1.CheckedOut, modification_timestamp := now }
        else row) }
    let productIds := c1.Products.map (fun product => product.ID)
    let (db2, err) := c1.linkCartToProducts db1 productIds
    (db2, c1, err)

/-- The method `c.addProducts(db, products)`. -/
def Cart.addProducts [DecidableEq P] (db : DB P) (c : Cart P) (products : List (Product P)) (now : Nat) :
    DB P × Cart P × Option Err :=
  if !c.CheckedOut then
    if products.length > 0 then
      match insertOrGetProducts db products with
      | (db1, .error err) => (db1, c, some err)
      | (db1, .ok ids) =>
        match c.linkCartToProducts db1 ids with
        | (db2, some err) => (db2, c, some err)
        | (db2, none) =>
          match c.updateCart db2 now with
          | (db3, c1, some err) => (db3, c1, some err)
          | (db3, c1, none) =>
            let (c2, err) := c1.getCart db3
            (db3, c2, err)
    else
      (db, c, none)
  else
    (db, c, some .alreadyCheckedOut)

/-- The method `c.removeProducts(db, productIds)`:
`DELETE FROM cart_products WHERE product_id IN (productIds)`.  An empty `IN ()`
list is not a statement PostgreSQL accepts. -/
def Cart.removeProducts (db : DB P) (c : Cart P) (productIds : List Int) :
    DB P × Cart P × Option Err :=
  if !c.CheckedOut then
    if productIds.length = 0 then
      (db, c, some (.rejected "syntax error at or near \")\""))
    else
      let db1 : DB P := { db with
        cart_products := db.cart_products.filter (fun l => decide (l.2 ∉ productIds)) }
      let (c1, err) := c.getCart db1
      (db1, c1, err)
  else
    (db, c, some .alreadyCheckedOut)

/-- The method `c.clear(db)`: `DELETE FROM cart_products WHERE cart_id = c.ID`. -/
def Cart.clear (db : DB P) (c : Cart P) : DB P × Cart P × Option Err :=
  if !c.CheckedOut then
    let db1 : DB P := { db with
      cart_products := db.cart_products.filter (fun l => decide (l.1 ≠ c.ID)) }
    let (c1, err) := c.getCart db1
    (db1, c1, err)
  else
    (db, c, some .alreadyCheckedOut)

/-- The three values `checkOut` returns, next to the store and the cart. -/
structure CheckOutResult (P : Type) where
  products : List (Product P)
  subtotal : P
  err : Option Err
deriving DecidableEq

/-- The method `c.checkOut(db)`; the subtotal starts at zero and each price is added
to it in turn, with the addition of the price type. -/
def Cart.checkOut [Add P] [Zero P] (db : DB P) (c : Cart P) (now : Nat) :
    DB P × Cart P × CheckOutResult P :=
  if !c.CheckedOut then
    match c.getCart db with
    | (c1, some err) => (db, c1, ⟨[], 0, some err⟩)
    | (c1, none) =>
      let products := c1.Products
      let subtotal := products.foldl (fun s product => s + product.Price) 0
      let c2 : Cart P := { c1 with CheckedOut := true }
      match c2.updateCart db now with
      | (db1, c3, some err) => (db1, c3, ⟨[], 0, some err⟩)
      | (db1, c3, none) => (db1, c3, ⟨products, subtotal, none⟩)
  else
    (db, c, ⟨[], 0, some .alreadyCheckedOut⟩)

/-! ## `app.go` -/

/-- The two errors of `strconv.Atoi`, `ErrSyntax` and `ErrRange`. -/
inductive NumError where
  | ErrSyntax
  | ErrRange
deriving DecidableEq

/-- The digits of `strconv.Atoi`, most significant first, with the value so far. -/
def atoiDigits : List Char → Nat → Option Nat
  | [], n => some n
  | ch :: rest, n =>
    if '0' ≤ ch ∧ ch ≤ '9' then atoiDigits rest (n * 10 + (ch.toNat - '0'.toNat)) else none

/-- The function `strconv.Atoi` for a 64-bit `int`: an optional sign, then at least one
decimal digit, and the value has to fit. -/
def Atoi (s : String) : Except NumError Int :=
  let s0 := s.toList
  let body := match s0 with
    | '-' :: r => r
    | '+' :: r => r
    | _ => s0
  if body.length < 1 then .error .ErrSyntax
  else
    match atoiDigits body 0 with
    | none => .error .ErrSyntax
    | some n =>
      let v : Int := if s0.head? = some '-' then -(n : Int) else (n : Int)
      if v < -(2 ^ 63) ∨ 2 ^ 63 - 1 < v then .error .ErrRange else .ok v

/-- What a handler hands to `respondWithJSON`. -/
inductive Payload (P : Type) where
  | error (message : String)
  | productList (products : List (Product P))
  | cart (c : Cart P)
  | checkOut (products : List (Product P)) (subtotal : P)
  | result (text : String)
deriving DecidableEq

/-- The status code and the payload of a response. -/
structure Response (P : Type) where
  code : Nat
  body : Payload P
deriving DecidableEq

/-- The function `respondWithError(w, code, message)`. -/
def respondWithError (code : Nat) (message : String) : Response P :=
  ⟨code, .error message⟩

/-- The literal `Cart{ID: cartID}`: every other field has its zero value. -/
def Cart.ofID (cartID : Int) : Cart P :=
  { ID := cartID, CreatedTimestamp := 0, ModificationTimestamp := 0,
    CheckedOut := false, Products := [] }

/-- The handler `(a *App) getProducts` on the form values `count` and `start`
(named apart from the store function `getProducts` it calls). -/
def App.getProductsHandler (db : DB P) (countStr startStr : String) : Response P :=
  match (if countStr ≠ "" then Atoi countStr else .ok 10) with
  | .error _ => respondWithError 400 "Invalid count parameter"
  | .ok count =>
    match (if startStr ≠ "" then Atoi startStr else .ok 0) with
    | .error _ => respondWithError 400 "Invalid start parameter"
    | .ok start =>
      match getProducts db start count with
      | .error err => respondWithError 500 err.Error
      | .ok products => ⟨200, .productList products⟩

/-- The handler `(a *App) removeProductsFromCart` on the path variable `id` and a
decoded request body. -/
def App.removeProductsFromCart (db : DB P) (idStr : String) (productIds : List Int) :
    DB P × Response P :=
  match Atoi idStr with
  | .error _ => (db, respondWithError 400 "Invalid Cart ID")
  | .ok cartID =>
    match (Cart.ofID cartID).getCart db with
    | (_, some _) => (db, respondWithError 404 "Cart not found")
    | (cart, none) =>
      match cart.removeProducts db productIds with
      | (db1, _, some _) => (db1, respondWithError 400 "Product was not found")
      | (db1, _, none) => (db1, ⟨200, .result "Products removed from Cart successfully"⟩)

/-- The handler `(a *App) checkout` on the path variable `id`. -/
def App.checkout [Add P] [Zero P] (db : DB P) (idStr : String) (now : Nat) :
    DB P × Response P :=
  match Atoi idStr with
  | .error _ => (db, respondWithError 400 "Invalid Cart ID")
  | .ok cartID =>
    match (Cart.ofID cartID).checkOut db now with
    | (db1, _, ⟨_, _, some err⟩) =>
      if err = .noRows then (db1, respondWithError 404 "Cart not found")
      else (db1, respondWithError 500 err.Error)
    | (db1, _, ⟨products, subtotal, none⟩) => (db1, ⟨200, .checkOut products subtotal⟩)

/-- The handler `(a *App) clearCart` on the path variable `id`. -/
def App.clearCart (db : DB P) (idStr : String) : DB P × Response P :=
  match Atoi idStr with
  | .error _ => (db, respondWithError 400 "Invalid Cart ID")
  | .ok cartID =>
    match (Cart.ofID cartID).clear db with
    | (db1, _, some err) => (db1, respondWithError 500 err.Error)
    | (db1, _, none) => (db1, ⟨200, .result "success"⟩)

/-! ## Queries used to state the properties -/

/-- The product ids linked to cart `cartID`, in table order. -/
def linkedIds (db : DB P) (cartID : Int) : List Int :=
  (db.cart_products.filter (fun l => decide (l.1 = cartID))).map (fun l => l.2)

/-- The product rows linked to cart `cartID`, in table order. -/
def linkedProducts (db : DB P) (cartID : Int) : List (Product P) :=
  db.products.filter (fun p => decide (p.ID ∈ linkedIds db cartID))

/-- The rows of `cart_products` that belong to cart `cartID`. -/
def linksOf (db : DB P) (cartID : Int) : List (Int × Int) :=
  db.cart_products.filter (fun l => decide (l.1 = cartID))

/-- A small store with exact decimal prices: two products, an open cart 1 holding
both, and a checked-out cart 2 holding the first. -/
def sampleDB : DB ℚ :=
  { products := [⟨1, "tea", 9.99⟩, ⟨2, "cup", 5⟩],
    products_id_seq := 3,
    carts := [⟨1, 10, 10, false⟩, ⟨2, 11, 12, true⟩],
    carts_id_seq := 3,
    cart_products := [(1, 1), (1, 2), (2, 1)],
    products_read_err := none }

/-- The sample store at a moment when the driver fails the read of product rows. -/
def sampleDBReadFails : DB ℚ :=
  { sampleDB with products_read_err := some (.driver "driver: bad connection") }

/-! ## Basic facts about the store functions -/

theorem getProductsByIDList_ok (db : DB P) (ids : List Int)
    (h : db.products_read_err = none ∨ ids = []) :
    getProductsByIDList db ids = .ok (db.products.filter (fun p => decide (p.ID ∈ ids))) := by
  unfold getProductsByIDList
  cases ids with
  | nil => simp
  | cons a t =>
    rcases h with h | h
    · simp [h]
    · simp at h

theorem getProductsByIDList_error (db : DB P) (ids : List Int) (err : Err)
    (h : db.products_read_err = some err) (hne : ids ≠ []) :
    getProductsByIDList db ids = .error err := by
  unfold getProductsByIDList
  cases ids with
  | nil => exact absurd rfl hne
  | cons a t => simp [h]

theorem find_cart_some {rows : List CartRow} {cid : Int} {r : CartRow}
    (h : rows.find? (fun r => decide (r.id = cid)) = some r) : r ∈ rows ∧ r.id = cid := by
  refine ⟨List.mem_of_find?_eq_some h, ?_⟩
  have := List.find?_some h
  simpa using this

theorem find_cart_exists {rows : List CartRow} {cid : Int}
    (h : ∃ row ∈ rows, row.id = cid) :
    ∃ r, rows.find? (fun r => decide (r.id = cid)) = some r := by
  cases hf : rows.find? (fun r => decide (r.id = cid)) with
  | some r => exact ⟨r, rfl⟩
  | none =>
    obtain ⟨row, hmem, hid⟩ := h
    have := List.find?_eq_none.mp hf row hmem
    simp [hid] at this

theorem find_cart_none {rows : List CartRow} {cid : Int}
    (h : ¬ ∃ row ∈ rows, row.id = cid) :
    rows.find? (fun r => decide (r.id = cid)) = none := by
  rw [List.find?_eq_none]
  intro row hmem hid
  exact h ⟨row, hmem, by simpa using hid⟩

theorem getCart_none (db : DB P) (c : Cart P)
    (h : db.carts.find? (fun r => decide (r.id = c.ID)) = none) :
    c.getCart db = (c, some .noRows) := by
  simp [Cart.getCart, h]

/-- The cart value `getCart` returns when the row is found and the products are
read. -/
theorem getCart_some (db : DB P) (c : Cart P) (r : CartRow)
    (h : db.carts.find? (fun r => decide (r.id = c.ID)) = some r)
    (hread : db.products_read_err = none ∨ linkedIds db c.ID = []) :
    c.getCart db =
      ({ ID := c.ID, CreatedTimestamp := r.created_timestamp,
         ModificationTimestamp := r.modification_timestamp,
         CheckedOut := r.checked_out, Products := linkedProducts db c.ID }, none) := by
  have hid : r.id = c.ID := (find_cart_some h).2
  have hread1 : db.products_read_err = none ∨
      List.map (fun l => l.2) (List.filter (fun l => decide (l.1 = c.ID)) db.cart_products)
        = [] := hread
  simp only [Cart.getCart, h, hid, getProductsByIDList_ok db _ hread1]
  rfl

/-- The cart value `getCart` returns when the row is found and the read of the
products fails: the fields of the row are in the value, the products are not. -/
theorem getCart_read_fails (db : DB P) (c : Cart P) (r : CartRow) (err : Err)
    (h : db.carts.find? (fun r => decide (r.id = c.ID)) = some r)
    (herr : db.products_read_err = some err) (hne : linkedIds db c.ID ≠ []) :
    c.getCart db =
      ({ ID := c.ID, CreatedTimestamp := r.created_timestamp,
         ModificationTimestamp := r.modification_timestamp,
         CheckedOut := r.checked_out, Products := c.Products }, some err) := by
  have hid : r.id = c.ID := (find_cart_some h).2
  have hne1 : List.map (fun l => l.2)
      (List.filter (fun l => decide (l.1 = c.ID)) db.cart_products) ≠ [] := hne
  simp only [Cart.getCart, h, hid, getProductsByIDList_error db _ err herr hne1]

/-- A successful `getCart` has found the row and read the linked products. -/
theorem getCart_success (db : DB P) (c : Cart P) (h : (c.getCart db).2 = none) :
    ∃ r, db.carts.find? (fun r => decide (r.id = c.ID)) = some r ∧
      c.getCart db =
        ({ ID := c.ID, CreatedTimestamp := r.created_timestamp,
           ModificationTimestamp := r.modification_timestamp,
           CheckedOut := r.checked_out, Products := linkedProducts db c.ID }, none) := by
  cases hf : db.carts.find? (fun r => decide (r.id = c.ID)) with
  | none =>
    rw [getCart_none db c hf] at h
    simp at h
  | some r =>
    refine ⟨r, rfl, ?_⟩
    by_cases hl : linkedIds db c.ID = []
    · exact getCart_some db c r hf (Or.inr hl)
    · cases he : db.products_read_err with
      | none => exact getCart_some db c r hf (Or.inl he)
      | some err =>
        rw [getCart_read_fails db c r err hf he hl] at h
        simp at h

theorem linkCartToProducts_eq (db : DB P) (c : Cart P) (ids : List Int) :
    c.linkCartToProducts db ids =
      ({ db with cart_products := insertLinksDoNothing db.cart_products c.ID ids }, none) := by
  unfold Cart.linkCartToProducts
  cases ids with
  | nil => simp [insertLinksDoNothing]
  | cons a t => simp

theorem updateCart_some (db : DB P) (c : Cart P) (now : Nat) (r : CartRow)
    (h : db.carts.find? (fun r => decide (r.id = c.ID)) = some r) :
    c.updateCart db now =
      ({ db with
          carts := db.carts.map (fun row =>
            if row.id = c.ID then
              { row with checked_out := c.CheckedOut, modification_timestamp := now }
            else row),
          cart_products :=
            insertLinksDoNothing db.cart_products c.ID (c.Products.map (fun p => p.ID)) },
       c, none) := by
  have hid : r.id = c.ID := (find_cart_some h).2
  simp [Cart.updateCart, h, linkCartToProducts_eq, hid]

theorem updateCart_none (db : DB P) (c : Cart P) (now : Nat)
    (h : db.carts.find? (fun r => decide (r.id = c.ID)) = none) :
    c.updateCart db now = (db, c, some (.cartDoesNotExist c.ID)) := by
  simp [Cart.updateCart, h]

theorem mem_insertLinksDoNothing (cid : Int) (ids : List Int) :
    ∀ (links : List (Int × Int)) (x : Int × Int),
      x ∈ insertLinksDoNothing links cid ids ↔ x ∈ links ∨ (x.1 = cid ∧ x.2 ∈ ids) := by
  induction ids with
  | nil => intro links x; simp [insertLinksDoNothing]
  | cons a t ih =>
    intro links x
    have ih' := ih (if (cid, a) ∈ links then links else links ++ [(cid, a)]) x
    simp only [insertLinksDoNothing, List.foldl_cons] at ih' ⊢
    rw [ih']
    by_cases hmem : (cid, a) ∈ links
    · simp only [hmem, if_true, List.mem_cons]
      constructor
      · rintro (h | ⟨h1, h2⟩)
        · exact Or.inl h
        · exact Or.inr ⟨h1, Or.inr h2⟩
      · rintro (h | ⟨h1, h2 | h2⟩)
        · exact Or.inl h
        · left
          have : x = (cid, a) := Prod.ext h1 h2
          rw [this]; exact hmem
        · exact Or.inr ⟨h1, h2⟩
    · simp only [hmem, if_false, List.mem_append, List.mem_singleton, List.mem_cons,
        List.not_mem_nil, or_false]
      constructor
      · rintro ((h | h) | ⟨h1, h2⟩)
        · exact Or.inl h
        · right; rw [h]; exact ⟨rfl, Or.inl rfl⟩
        · exact Or.inr ⟨h1, Or.inr h2⟩
      · rintro (h | ⟨h1, h2 | h2⟩)
        · exact Or.inl (Or.inl h)
        · exact Or.inl (Or.inr (Prod.ext h1 h2))
        · exact Or.inr ⟨h1, h2⟩

theorem insertLinksDoNothing_present (cid : Int) (ids : List Int) :
    ∀ (links : List (Int × Int)), (∀ id ∈ ids, (cid, id) ∈ links) →
      insertLinksDoNothing links cid ids = links := by
  induction ids with
  | nil => intro links _; simp [insertLinksDoNothing]
  | cons a t ih =>
    intro links h
    have ha : (cid, a) ∈ links := h a (List.mem_cons_self a t)
    have ht := ih links (fun id hid => h id (List.mem_cons_of_mem a hid))
    simp only [insertLinksDoNothing, List.foldl_cons, ha, if_true] at ht ⊢
    exact ht

theorem insertLinksDoNothing_filter_other (cid k : Int) (hk : k ≠ cid) (ids : List Int) :
    ∀ (links : List (Int × Int)),
      (insertLinksDoNothing links cid ids).filter (fun l => decide (l.1 = k)) =
        links.filter (fun l => decide (l.1 = k)) := by
  induction ids with
  | nil => intro links; simp [insertLinksDoNothing]
  | cons a t ih =>
    intro links
    have ih' := ih (if (cid, a) ∈ links then links else links ++ [(cid, a)])
    simp only [insertLinksDoNothing, List.foldl_cons] at ih' ⊢
    rw [ih']
    by_cases hmem : (cid, a) ∈ links
    · simp [hmem]
    · simp [hmem, List.filter_append, Ne.symm hk]

theorem mem_linkedIds (db : DB P) (cid pid : Int) :
    pid ∈ linkedIds db cid ↔ (cid, pid) ∈ db.cart_products := by
  simp only [linkedIds, List.mem_map, List.mem_filter, decide_eq_true_eq]
  constructor
  · rintro ⟨⟨a, b⟩, ⟨hmem, h1⟩, h2⟩
    simp only at h1 h2
    subst h1; subst h2; exact hmem
  · intro h
    exact ⟨(cid, pid), ⟨h, rfl⟩, rfl⟩

theorem relink_loaded (db : DB P) (cid : Int) :
    insertLinksDoNothing db.cart_products cid ((linkedProducts db cid).map (fun p => p.ID)) =
      db.cart_products := by
  apply insertLinksDoNothing_present
  intro id hid
  simp only [linkedProducts, List.mem_map, List.mem_filter, decide_eq_true_eq] at hid
  obtain ⟨p, ⟨_, hp⟩, rfl⟩ := hid
  exact (mem_linkedIds db cid p.ID).mp hp

/-- With exact prices the accumulated subtotal is the list sum of the prices. -/
theorem foldl_price_eq_sum (ps : List (Product ℚ)) (s : ℚ) :
    ps.foldl (fun s product => s + product.Price) s = s + (ps.map (fun p => p.Price)).sum := by
  induction ps generalizing s with
  | nil => simp
  | cons p t ih => simp [ih, add_assoc]

/-- The result of `checkOut` on an open cart value when `getCart` succeeds. -/
theorem checkOut_open [Add P] [Zero P] (db : DB P) (c : Cart P) (now : Nat) (r : CartRow)
    (hc : c.CheckedOut = false)
    (h : db.carts.find? (fun r => decide (r.id = c.ID)) = some r)
    (hread : db.products_read_err = none ∨ linkedIds db c.ID = []) :
    c.checkOut db now =
      ({ db with
          carts := db.carts.map (fun row =>
            if row.id = c.ID then
              { row with checked_out := true, modification_timestamp := now }
            else row) },
       { ID := c.ID, CreatedTimestamp := r.created_timestamp,
         ModificationTimestamp := r.modification_timestamp,
         CheckedOut := true, Products := linkedProducts db c.ID },
       ⟨linkedProducts db c.ID,
        (linkedProducts db c.ID).foldl (fun s product => s + product.Price) 0, none⟩) := by
  have h2 : db.carts.find? (fun row => decide (row.id =
      ({ ID := c.ID, CreatedTimestamp := r.created_timestamp,
         ModificationTimestamp := r.modification_timestamp,
         CheckedOut := true, Products := linkedProducts db c.ID } : Cart P).ID)) = some r := h
  simp only [Cart.checkOut, hc, Bool.not_false, if_true, getCart_some db c r h hread]
  rw [updateCart_some _ _ now r h2]
  simp only [relink_loaded]

/-- A `checkOut` without error on an open cart value went through a successful
`getCart`. -/
theorem checkOut_ok_getCart [Add P] [Zero P] (db : DB P) (c : Cart P) (now : Nat)
    (hc : c.CheckedOut = false) (hok : (c.checkOut db now).2.2.err = none) :
    (c.getCart db).2 = none := by
  cases hg : c.getCart db with
  | mk c1 e =>
    cases e with
    | none => rfl
    | some err =>
      simp [Cart.checkOut, hc, hg] at hok

/-- The read condition of `getCart_some`, from a successful `getCart`. -/
theorem read_ok_of_getCart (db : DB P) (c : Cart P) (h : (c.getCart db).2 = none) :
    db.products_read_err = none ∨ linkedIds db c.ID = [] := by
  obtain ⟨r, hf, _⟩ := getCart_success db c h
  by_cases hl : linkedIds db c.ID = []
  · exact Or.inr hl
  · cases he : db.products_read_err with
    | none => exact Or.inl rfl
    | some err =>
      rw [getCart_read_fails db c r err hf he hl] at h
      simp at h

/-! ## Cart lifecycle -/

/-- C1: a successful `checkOut` on a cart value with `CheckedOut = false` whose row
exists leaves the value's `CheckedOut` true and the stored `checked_out` flag of
that cart true; and on a cart value with `CheckedOut = true` each of
`addProducts`, `removeProducts`, `clear` and `checkOut` returns the error
"Cart already checked out!" and leaves the whole store (so the products, carts
and cart_products tables) as it was. -/
theorem C1_cart_lifecycle [DecidableEq P] [Add P] [Zero P] :
    (∀ (db : DB P) (c : Cart P) (now : Nat),
        c.CheckedOut = false → (∃ row ∈ db.carts, row.id = c.ID) →
        (c.checkOut db now).2.2.err = none →
        (c.checkOut db now).2.1.CheckedOut = true ∧
        (∃ row ∈ (c.checkOut db now).1.carts, row.id = c.ID) ∧
        ∀ row ∈ (c.checkOut db now).1.carts, row.id = c.ID → row.checked_out = true) ∧
    (∀ (db : DB P) (c : Cart P), c.CheckedOut = true →
        (∀ ps now, c.addProducts db ps now = (db, c, some .alreadyCheckedOut)) ∧
        (∀ ids, c.removeProducts db ids = (db, c, some .alreadyCheckedOut)) ∧
        c.clear db = (db, c, some .alreadyCheckedOut) ∧
        (∀ now, c.checkOut db now = (db, c, ⟨[], 0, some .alreadyCheckedOut⟩))) ∧
    Err.Error .alreadyCheckedOut = "Cart already checked out!" := by
  refine ⟨?_, ?_, rfl⟩
  · intro db c now hc hex hok
    have hget := checkOut_ok_getCart db c now hc hok
    obtain ⟨r, hr, _⟩ := getCart_success db c hget
    rw [checkOut_open db c now r hc hr (read_ok_of_getCart db c hget)]
    refine ⟨rfl, ?_, ?_⟩
    · obtain ⟨row, hmem, hid⟩ := hex
      refine ⟨{ row with checked_out := true, modification_timestamp := now }, ?_, hid⟩
      simp only [List.mem_map]
      exact ⟨row, hmem, by simp [hid]⟩
    · intro row hrow hid
      simp only [List.mem_map] at hrow
      obtain ⟨row0, _, hrow0⟩ := hrow
      by_cases h0 : row0.id = c.ID
      · rw [if_pos h0] at hrow0
        rw [← hrow0]
      · rw [if_neg h0] at hrow0
        rw [hrow0] at h0
        exact absurd hid h0
  · intro db c hc
    refine ⟨?_, ?_, ?_, ?_⟩
    · intro ps now; simp [Cart.addProducts, hc]
    · intro ids; simp [Cart.removeProducts, hc]
    · simp [Cart.clear, hc]
    · intro now; simp [Cart.checkOut, hc]

/-- C1, on the sample store: cart 1 is open and gets checked out; the value of the
checked-out cart 2 is refused by all four operations. -/
theorem C1_cart_lifecycle_witness :
    ((Cart.ofID 1).checkOut sampleDB 20).2.1.CheckedOut = true ∧
    (∀ row ∈ ((Cart.ofID 1).checkOut sampleDB 20).1.carts, row.id = 1 → row.checked_out = true) ∧
    ({ Cart.ofID 2 with CheckedOut := true } : Cart ℚ).clear sampleDB =
      (sampleDB, { Cart.ofID 2 with CheckedOut := true }, some .alreadyCheckedOut) :=
  have h := C1_cart_lifecycle.1 sampleDB (Cart.ofID 1) 20 rfl
    ⟨⟨1, 10, 10, false⟩, by decide, rfl⟩ rfl
  ⟨h.1, h.2.2, (C1_cart_lifecycle.2.1 sampleDB { Cart.ofID 2 with CheckedOut := true } rfl).2.2.1⟩

/-- C2, at the failing input: cart 2 of the sample store is stored as checked out,
yet `checkOut` on the cart value the handler builds from the id alone returns its
product and subtotal with no error, and the handler answers 200. -/
theorem C2_checkOut_again_succeeds :
    (∃ row ∈ sampleDB.carts, row.id = 2 ∧ row.checked_out = true) ∧
    ((Cart.ofID 2).checkOut sampleDB 20).2.2 = ⟨[⟨1, "tea", 9.99⟩], 9.99, none⟩ ∧
    (App.checkout sampleDB "2" 20).2 = ⟨200, .checkOut [⟨1, "tea", 9.99⟩] 9.99⟩ := by
  have hl : linkedProducts sampleDB (Cart.ofID 2 : Cart ℚ).ID = [⟨1, "tea", 9.99⟩] := rfl
  have ha : Atoi "2" = .ok 2 := rfl
  have hco := checkOut_open sampleDB (Cart.ofID 2) 20 ⟨2, 11, 12, true⟩ rfl rfl (Or.inl rfl)
  refine ⟨⟨⟨2, 11, 12, true⟩, by decide, rfl, rfl⟩, ?_, ?_⟩
  · rw [hco, hl]
    simp
  · simp only [App.checkout, ha, hco, hl]
    simp

/-- C3, at the failing input: cart 2 of the sample store is checked out and linked
to product 1; the `clearCart` handler for cart 2 answers 200 and removes that link,
and so does `removeProductsFromCart` for the open cart 1 with product id 1. -/
theorem C3_checked_out_cart_links_change :
    (∃ row ∈ sampleDB.carts, row.id = 2 ∧ row.checked_out = true) ∧
    linksOf sampleDB 2 = [(2, 1)] ∧
    (App.clearCart sampleDB "2").2.code = 200 ∧
    linksOf (App.clearCart sampleDB "2").1 2 = [] ∧
    (App.removeProductsFromCart sampleDB "1" [1]).2.code = 200 ∧
    linksOf (App.removeProductsFromCart sampleDB "1" [1]).1 2 = [] := by
  refine ⟨⟨⟨2, 11, 12, true⟩, by decide, rfl, rfl⟩, by decide, by decide, by decide,
    by decide, by decide⟩

/-! ## Checkout -/

/-- C4: a successful `checkOut` of an existing cart whose value is not checked out
returns exactly the product rows linked to the cart at call time and, as subtotal,
their prices added up from zero in the arithmetic of the price type (zero when
the cart has no links), and leaves the cart_products and products tables
unchanged; with prices taken as exact decimals the subtotal is the sum of the
prices, 14.99 for the two prices 9.99 and 5.00. -/
theorem C4_checkOut_subtotal [Add P] [Zero P] (db : DB P) (c : Cart P) (now : Nat)
    (hc : c.CheckedOut = false) (_hex : ∃ row ∈ db.carts, row.id = c.ID)
    (hok : (c.checkOut db now).2.2.err = none) :
    (c.checkOut db now).2.2.products = linkedProducts db c.ID ∧
    (c.checkOut db now).2.2.subtotal =
      (linkedProducts db c.ID).foldl (fun s p => s + p.Price) 0 ∧
    (linksOf db c.ID = [] →
      (c.checkOut db now).2.2.products = [] ∧ (c.checkOut db now).2.2.subtotal = 0) ∧
    (c.checkOut db now).1.cart_products = db.cart_products ∧
    (c.checkOut db now).1.products = db.products ∧
    (∀ (dq : DB ℚ) (cq : Cart ℚ) (nq : Nat),
      cq.CheckedOut = false → (∃ row ∈ dq.carts, row.id = cq.ID) →
      (cq.checkOut dq nq).2.2.err = none →
      (cq.checkOut dq nq).2.2.subtotal =
        ((linkedProducts dq cq.ID).map (fun p => p.Price)).sum ∧
      (∀ p q : Product ℚ, linkedProducts dq cq.ID = [p, q] →
        p.Price = 9.99 → q.Price = 5.00 → (cq.checkOut dq nq).2.2.subtotal = 14.99)) := by
  have hget := checkOut_ok_getCart db c now hc hok
  obtain ⟨r, hr, _⟩ := getCart_success db c hget
  rw [checkOut_open db c now r hc hr (read_ok_of_getCart db c hget)]
  refine ⟨rfl, rfl, ?_, rfl, rfl, ?_⟩
  · intro hno
    have : linkedProducts db c.ID = [] := by
      simp only [linksOf] at hno
      simp [linkedProducts, linkedIds, hno]
    simp [this]
  · intro dq cq nq hcq _ hokq
    have hgetq := checkOut_ok_getCart dq cq nq hcq hokq
    obtain ⟨rq, hrq, _⟩ := getCart_success dq cq hgetq
    rw [checkOut_open dq cq nq rq hcq hrq (read_ok_of_getCart dq cq hgetq)]
    simp only [foldl_price_eq_sum, zero_add]
    refine ⟨trivial, ?_⟩
    intro p q hpq hp hq
    rw [hpq]
    simp only [List.map_cons, List.map_nil, List.sum_cons, List.sum_nil, hp, hq]
    norm_num

/-- C4, on the sample store: cart 1 holds the products priced 9.99 and 5.00. -/
theorem C4_checkOut_subtotal_witness :
    ((Cart.ofID 1).checkOut sampleDB 20).2.2.products = [⟨1, "tea", 9.99⟩, ⟨2, "cup", 5⟩] ∧
    ((Cart.ofID 1).checkOut sampleDB 20).2.2.subtotal = 14.99 ∧
    ((Cart.ofID 1).checkOut sampleDB 20).1.cart_products = [(1, 1), (1, 2), (2, 1)] :=
  have h := C4_checkOut_subtotal sampleDB (Cart.ofID 1) 20 rfl
    ⟨⟨1, 10, 10, false⟩, by decide, rfl⟩ rfl
  ⟨h.1.trans rfl,
   ((h.2.2.2.2.2 sampleDB (Cart.ofID 1) 20 rfl ⟨⟨1, 10, 10, false⟩, by decide, rfl⟩ rfl).2
      ⟨1, "tea", 9.99⟩ ⟨2, "cup", 5⟩ rfl rfl (by norm_num)),
   h.2.2.2.1⟩

/-! ## Insert-or-get -/

/-- The id the lookup of `insertOrGetProducts` yields for `p` over the rows `rows`
(0 when no row matches). -/
def selectedId [DecidableEq P] (rows : List (Product P)) (p : Product P) : Int :=
  match selectIdOrNamePrice rows p with
  | some r => r.ID
  | none => 0

theorem select_append_of_some [DecidableEq P] {rows : List (Product P)} {p r : Product P}
    (more : List (Product P)) (h : selectIdOrNamePrice rows p = some r) :
    selectIdOrNamePrice (rows ++ more) p = some r := by
  simp only [selectIdOrNamePrice] at h ⊢
  rw [List.find?_append, h]
  rfl

theorem select_append_of_none [DecidableEq P] {rows : List (Product P)} {p : Product P}
    (sq : Int) (more : List (Product P)) (h : selectIdOrNamePrice rows p = none) :
    selectIdOrNamePrice (rows ++ ({ ID := sq, Name := p.Name, Price := p.Price } :: more)) p =
      some { ID := sq, Name := p.Name, Price := p.Price } := by
  simp only [selectIdOrNamePrice] at h ⊢
  rw [List.find?_append, h]
  simp

theorem select_none_key [DecidableEq P] {rows : List (Product P)} {p : Product P}
    (h : selectIdOrNamePrice rows p = none) :
    ∀ o ∈ rows, ¬(o.Name = p.Name ∧ o.Price = p.Price) := by
  intro o ho hk
  have := List.find?_eq_none.mp h o ho
  simp [hk] at this

/-- Two entries with the same (name, price) are looked up alike in a table none of
whose rows carries the id field of either entry with another (name, price). -/
theorem select_same_key [DecidableEq P] (p q : Product P)
    (hn : p.Name = q.Name) (hp : p.Price = q.Price) :
    ∀ rows : List (Product P),
      (∀ r ∈ rows, (r.ID = p.ID ∨ r.ID = q.ID) → r.Name = p.Name ∧ r.Price = p.Price) →
      selectIdOrNamePrice rows p = selectIdOrNamePrice rows q := by
  intro rows
  induction rows with
  | nil => intro _; rfl
  | cons r t ih =>
    intro H
    have hr := H r (List.mem_cons_self r t)
    have ht := ih (fun x hx => H x (List.mem_cons_of_mem r hx))
    have hiff : (r.ID = p.ID ∨ (r.Name = p.Name ∧ r.Price = p.Price)) ↔
        (r.ID = q.ID ∨ (r.Name = q.Name ∧ r.Price = q.Price)) := by
      constructor
      · rintro (h | h)
        · have := hr (Or.inl h)
          exact Or.inr ⟨this.1.trans hn, this.2.trans hp⟩
        · exact Or.inr ⟨h.1.trans hn, h.2.trans hp⟩
      · rintro (h | h)
        · exact Or.inr (hr (Or.inr h))
        · exact Or.inr ⟨h.1.trans hn.symm, h.2.trans hp.symm⟩
    simp only [selectIdOrNamePrice, List.find?_cons] at ht ⊢
    by_cases hpr : r.ID = p.ID ∨ (r.Name = p.Name ∧ r.Price = p.Price)
    · have hqr := hiff.mp hpr
      simp [hpr, hqr]
    · have hqr : ¬(r.ID = q.ID ∨ (r.Name = q.Name ∧ r.Price = q.Price)) :=
        fun h => hpr (hiff.mpr h)
      simp only [hpr, hqr, decide_False]
      exact ht

/-- What one run of the loop does: it always returns a list of ids, only appends
rows to `products`, and every id it returns is the one the lookup finds in the
final table (and in any table that extends it). -/
theorem insertOrGetLoop_run [DecidableEq P] (ps : List (Product P)) :
    ∀ db : DB P, ∃ (db1 : DB P) (ids : List Int) (new : List (Product P)),
      (∀ acc, insertOrGetLoop db acc ps = (db1, .ok (acc ++ ids))) ∧
      db1.products = db.products ++ new ∧
      db1.carts = db.carts ∧ db1.cart_products = db.cart_products ∧
      db1.carts_id_seq = db.carts_id_seq ∧
      (∀ more, (∀ p ∈ ps, selectIdOrNamePrice (db1.products ++ more) p ≠ none) ∧
        ids = ps.map (selectedId (db1.products ++ more))) ∧
      (new.map (fun r => (r.Name, r.Price))).Nodup ∧
      (∀ r ∈ new, ∀ o ∈ db.products, ¬(o.Name = r.Name ∧ o.Price = r.Price)) := by
  induction ps with
  | nil =>
    intro db
    exact ⟨db, [], [], by simp [insertOrGetLoop], by simp, rfl, rfl, rfl, by simp, by simp,
      by simp⟩
  | cons p rest ih =>
    intro db
    cases hsel : selectIdOrNamePrice db.products p with
    | some r =>
      obtain ⟨db1, ids, new, hrun, hprod, hcarts, hlinks, hseq, hstable, hnodup, hfresh⟩ := ih db
      refine ⟨db1, r.ID :: ids, new, ?_, hprod, hcarts, hlinks, hseq, ?_, hnodup, hfresh⟩
      · intro acc
        simp only [insertOrGetLoop, hsel]
        rw [hrun]
        simp
      · intro more
        have hp : selectIdOrNamePrice (db1.products ++ more) p = some r := by
          rw [hprod, List.append_assoc]
          exact select_append_of_some _ hsel
        obtain ⟨h1, h2⟩ := hstable more
        refine ⟨?_, ?_⟩
        · intro q hq
          rcases List.mem_cons.mp hq with rfl | hq
          · simp [hp]
          · exact h1 q hq
        · simp only [List.map_cons, selectedId, hp]
          rw [h2]
    | none =>
      obtain ⟨db1, ids, new, hrun, hprod, hcarts, hlinks, hseq, hstable, hnodup, hfresh⟩ :=
        ih (insertProductRow db p.Name p.Price).1
      simp only [insertProductRow] at hprod hcarts hlinks hseq hfresh
      refine ⟨db1, db.products_id_seq :: ids,
        { ID := db.products_id_seq, Name := p.Name, Price := p.Price } :: new,
        ?_, ?_, hcarts, hlinks, hseq, ?_, ?_, ?_⟩
      · intro acc
        simp only [insertOrGetLoop, hsel, insertProductRow]
        have := hrun (acc ++ [db.products_id_seq])
        simp only [insertProductRow] at this
        rw [this]
        simp
      · rw [hprod]; simp
      · intro more
        have hp : selectIdOrNamePrice (db1.products ++ more) p =
            some { ID := db.products_id_seq, Name := p.Name, Price := p.Price } := by
          rw [hprod, List.append_assoc, List.append_assoc]
          exact select_append_of_none _ _ hsel
        obtain ⟨h1, h2⟩ := hstable more
        refine ⟨?_, ?_⟩
        · intro q hq
          rcases List.mem_cons.mp hq with rfl | hq
          · simp [hp]
          · exact h1 q hq
        · simp only [List.map_cons, selectedId, hp]
          rw [h2]
      · simp only [List.map_cons, List.nodup_cons]
        refine ⟨?_, hnodup⟩
        intro hmem
        obtain ⟨r, hr, hkey⟩ := List.mem_map.mp hmem
        simp only [Prod.mk.injEq] at hkey
        exact hfresh r hr { ID := db.products_id_seq, Name := p.Name, Price := p.Price }
          (by simp) ⟨hkey.1.symm, hkey.2.symm⟩
      · intro r hr o ho
        rcases List.mem_cons.mp hr with rfl | hr
        · exact select_none_key hsel o ho
        · exact hfresh r hr o (by simp [ho])

/-- When every product of `ps` is found, the loop returns the found ids and leaves
the store alone. -/
theorem insertOrGetLoop_all_found [DecidableEq P] (ps : List (Product P)) (db : DB P)
    (h : ∀ p ∈ ps, selectIdOrNamePrice db.products p ≠ none) :
    ∀ acc, insertOrGetLoop db acc ps = (db, .ok (acc ++ ps.map (selectedId db.products))) := by
  induction ps with
  | nil => intro acc; simp [insertOrGetLoop]
  | cons p rest ih =>
    intro acc
    have hp := h p (List.mem_cons_self p rest)
    cases hsel : selectIdOrNamePrice db.products p with
    | none => exact absurd hsel hp
    | some r =>
      simp only [insertOrGetLoop, hsel]
      rw [ih (fun q hq => h q (List.mem_cons_of_mem p hq))]
      simp [selectedId, hsel]

/-- C5, as stated, fails: the list below holds the same (name, price) twice, the
first time with the id of the "cup" row; the first entry is matched by id and gets
id 2, the second matches no row, is inserted and gets id 3. -/
theorem C5_same_name_price_two_ids :
    (⟨2, "mug", 3⟩ : Product ℚ).Name = (⟨0, "mug", 3⟩ : Product ℚ).Name ∧
    (⟨2, "mug", 3⟩ : Product ℚ).Price = (⟨0, "mug", 3⟩ : Product ℚ).Price ∧
    (insertOrGetProducts sampleDB [⟨2, "mug", 3⟩, ⟨0, "mug", 3⟩]).2 = .ok [2, 3] ∧
    (2 : Int) ≠ 3 := by
  refine ⟨rfl, rfl, ?_, by decide⟩
  rfl

/-- C5, amended: after a successful `insertOrGetProducts db ps`, a second call with
`ps` returns the same id list and leaves the store as the first call left it; two
positions of `ps` holding the same (name, price) get the same id whenever no row
of the table, as the call leaves it, carries the id field of either entry with
another (name, price), and always when the two entries are the same product;
and the first call only appends rows, whose (name, price) pairs are pairwise
distinct and were not in the table, so at most one row is added per (name, price). -/
theorem C5_insertOrGet_idempotent [DecidableEq P] (db db1 : DB P) (ps : List (Product P))
    (ids : List Int) (h : insertOrGetProducts db ps = (db1, .ok ids)) :
    insertOrGetProducts db1 ps = (db1, .ok ids) ∧
    (∀ (i j : Nat) (p q : Product P), ps[i]? = some p → ps[j]? = some q →
      p.Name = q.Name → p.Price = q.Price →
      (∀ r ∈ db1.products, (r.ID = p.ID ∨ r.ID = q.ID) → r.Name = p.Name ∧ r.Price = p.Price) →
      ids[i]? = ids[j]? ∧ ids[i]? ≠ none) ∧
    (∀ (i j : Nat) (p : Product P), ps[i]? = some p → ps[j]? = some p →
      ids[i]? = ids[j]? ∧ ids[i]? ≠ none) ∧
    ∃ new : List (Product P),
      db1.products = db.products ++ new ∧
      (new.map (fun r => (r.Name, r.Price))).Nodup ∧
      ∀ r ∈ new, ∀ o ∈ db.products, ¬(o.Name = r.Name ∧ o.Price = r.Price) := by
  obtain ⟨d, l, new, hrun, hprod, _, _, _, hstable, hnodup, hfresh⟩ := insertOrGetLoop_run ps db
  have hrun0 := hrun []
  simp only [insertOrGetProducts] at h
  rw [h] at hrun0
  simp only [List.nil_append, Prod.mk.injEq, Except.ok.injEq] at hrun0
  obtain ⟨hd, hl⟩ := hrun0
  subst hd; subst hl
  obtain ⟨hfound, hids⟩ := hstable []
  simp only [List.append_nil] at hfound hids
  refine ⟨?_, ?_, ?_, new, hprod, hnodup, hfresh⟩
  · simp only [insertOrGetProducts]
    rw [insertOrGetLoop_all_found ps db1 hfound [], ← hids]
    rfl
  · intro i j p q hi hj hn hp H
    rw [hids]
    have hsame : selectedId db1.products p = selectedId db1.products q := by
      simp only [selectedId, select_same_key p q hn hp db1.products H]
    simp [List.getElem?_map, hi, hj, hsame]
  · intro i j p hi hj
    rw [hids]
    simp [List.getElem?_map, hi, hj]

/-- C5, amended, on the sample store: the list holds the new (name, price) twice,
with the id fields 0 and 7 that no row carries; both positions get id 3, one row
is added, and the second call changes nothing. -/
theorem C5_insertOrGet_idempotent_witness :
    insertOrGetProducts
        { sampleDB with products := sampleDB.products ++ [⟨3, "mug", 3⟩], products_id_seq := 4 }
        [⟨0, "mug", 3⟩, ⟨7, "mug", 3⟩] =
      ({ sampleDB with products := sampleDB.products ++ [⟨3, "mug", 3⟩], products_id_seq := 4 },
        .ok [3, 3]) ∧
    ([3, 3] : List Int)[0]? = ([3, 3] : List Int)[1]? :=
  have h := C5_insertOrGet_idempotent sampleDB
    { sampleDB with products := sampleDB.products ++ [⟨3, "mug", 3⟩], products_id_seq := 4 }
    [⟨0, "mug", 3⟩, ⟨7, "mug", 3⟩] [3, 3] rfl
  ⟨h.1, (h.2.1 0 1 ⟨0, "mug", 3⟩ ⟨7, "mug", 3⟩ rfl rfl rfl rfl (by
      intro r hr hid
      simp only [sampleDB, List.cons_append, List.nil_append, List.mem_cons,
        List.mem_singleton, List.not_mem_nil, or_false] at hr
      rcases hr with rfl | rfl | rfl <;> simp at hid)).1⟩

/-! ## Adding products -/

/-- A cart value that `getCart` has just loaded: its row is in the store and its
products are the rows linked to it. -/
theorem loaded_cart (db : DB P) (c0 c : Cart P) (h : c0.getCart db = (c, none)) :
    (∃ r, db.carts.find? (fun r => decide (r.id = c.ID)) = some r) ∧
      c.Products = linkedProducts db c.ID := by
  have hok : (c0.getCart db).2 = none := by rw [h]
  obtain ⟨r, hf, heq⟩ := getCart_success db c0 hok
  rw [h] at heq
  simp only [Prod.mk.injEq, and_true] at heq
  subst heq
  exact ⟨⟨r, hf⟩, rfl⟩

theorem insertOrGetProducts_frame [DecidableEq P] (db : DB P) (ps : List (Product P)) :
    ∃ (db1 : DB P) (ids : List Int), insertOrGetProducts db ps = (db1, .ok ids) ∧
      db1.carts = db.carts ∧ db1.cart_products = db.cart_products ∧
      db1.carts_id_seq = db.carts_id_seq := by
  obtain ⟨db1, ids, _, hrun, _, hcarts, hlinks, hseq, _⟩ := insertOrGetLoop_run ps db
  exact ⟨db1, ids, by simpa [insertOrGetProducts] using hrun [], hcarts, hlinks, hseq⟩

/-- The links table after `addProducts` on an open cart value whose row exists. -/
theorem addProducts_open_links [DecidableEq P] (db db1 : DB P) (c : Cart P)
    (ps : List (Product P)) (ids : List Int)
    (now : Nat) (r : CartRow) (hc : c.CheckedOut = false) (hps : ps ≠ [])
    (hrow : db.carts.find? (fun r => decide (r.id = c.ID)) = some r)
    (hins : insertOrGetProducts db ps = (db1, .ok ids))
    (hcarts : db1.carts = db.carts) (hlinks : db1.cart_products = db.cart_products) :
    (c.addProducts db ps now).1.cart_products =
      insertLinksDoNothing (insertLinksDoNothing db.cart_products c.ID ids) c.ID
        (c.Products.map (fun p => p.ID)) := by
  have hlen : ps.length > 0 := List.length_pos.mpr hps
  have hrow1 : List.find? (fun r => decide (r.id = c.ID))
      ({ db1 with cart_products := insertLinksDoNothing db1.cart_products c.ID ids } : DB P).carts
        = some r := by
    simpa [hcarts] using hrow
  simp only [Cart.addProducts, hc, Bool.not_false, if_true, hlen, hins, linkCartToProducts_eq]
  rw [updateCart_some _ c now r hrow1]
  simp only [hlinks]

/-- C6: for a cart value `c` just loaded by `getCart` with `CheckedOut = false`, a
successful `c.addProducts(ps)` leaves the set of product ids linked to `c.ID`
equal to the previous set united with the ids `insertOrGetProducts` returns for
`ps`, leaves the links of every other cart unchanged, and for `ps = []` changes
nothing in the store and nothing in the cart value. -/
theorem C6_addProducts_links [DecidableEq P] (db : DB P) (c0 c : Cart P)
    (ps : List (Product P)) (now : Nat)
    (hload : c0.getCart db = (c, none)) (hc : c.CheckedOut = false)
    (_hok : (c.addProducts db ps now).2.2 = none) :
    (∃ ids, (insertOrGetProducts db ps).2 = .ok ids ∧
      ∀ pid, pid ∈ linkedIds (c.addProducts db ps now).1 c.ID ↔
        pid ∈ linkedIds db c.ID ∨ pid ∈ ids) ∧
    (∀ k, k ≠ c.ID → linksOf (c.addProducts db ps now).1 k = linksOf db k) ∧
    (ps = [] → c.addProducts db ps now = (db, c, none)) := by
  obtain ⟨⟨r, hrow⟩, hprods⟩ := loaded_cart db c0 c hload
  have hnil : ps = [] → c.addProducts db ps now = (db, c, none) := by
    intro h; subst h; simp [Cart.addProducts, hc]
  by_cases hps : ps = []
  · refine ⟨⟨[], ?_, ?_⟩, ?_, hnil⟩
    · subst hps; rfl
    · intro pid; rw [hnil hps]; simp
    · intro k _; rw [hnil hps]
  · obtain ⟨db1, ids, hins, hcarts, hlinks, _⟩ := insertOrGetProducts_frame db ps
    have hcp := addProducts_open_links db db1 c ps ids now r hc hps hrow hins hcarts hlinks
    refine ⟨⟨ids, by rw [hins], ?_⟩, ?_, hnil⟩
    · intro pid
      rw [mem_linkedIds, mem_linkedIds, hcp, mem_insertLinksDoNothing, mem_insertLinksDoNothing]
      constructor
      · rintro ((h | ⟨_, h⟩) | ⟨_, h⟩)
        · exact Or.inl h
        · exact Or.inr h
        · left
          rw [hprods] at h
          simp only [linkedProducts, List.mem_map, List.mem_filter, decide_eq_true_eq] at h
          obtain ⟨p, ⟨_, hp⟩, hpid⟩ := h
          rw [← hpid]
          exact (mem_linkedIds db c.ID p.ID).mp hp
      · rintro (h | h)
        · exact Or.inl (Or.inl h)
        · exact Or.inl (Or.inr ⟨rfl, h⟩)
    · intro k hk
      simp only [linksOf, hcp]
      rw [insertLinksDoNothing_filter_other c.ID k hk, insertLinksDoNothing_filter_other c.ID k hk]

/-- C6, on the sample store: the loaded cart 1 gets the new product 3 linked, and
the link of cart 2 stays. -/
theorem C6_addProducts_links_witness :
    (∃ ids, (insertOrGetProducts sampleDB [⟨0, "mug", 3⟩]).2 = .ok ids ∧
      ∀ pid, pid ∈ linkedIds
          ((⟨1, 10, 10, false, [⟨1, "tea", 9.99⟩, ⟨2, "cup", 5⟩]⟩ : Cart ℚ).addProducts
            sampleDB [⟨0, "mug", 3⟩] 20).1 1 ↔
        pid ∈ linkedIds sampleDB 1 ∨ pid ∈ ids) ∧
    linksOf ((⟨1, 10, 10, false, [⟨1, "tea", 9.99⟩, ⟨2, "cup", 5⟩]⟩ : Cart ℚ).addProducts
      sampleDB [⟨0, "mug", 3⟩] 20).1 2 = linksOf sampleDB 2 :=
  have h := C6_addProducts_links sampleDB (Cart.ofID 1)
    ⟨1, 10, 10, false, [⟨1, "tea", 9.99⟩, ⟨2, "cup", 5⟩]⟩ [⟨0, "mug", 3⟩] 20 rfl rfl rfl
  ⟨h.1, h.2.1 2 (by decide)⟩

/-! ## Removing products and clearing -/

/-- C7: for an existing cart value with `CheckedOut = false` and a non-empty id
list, after a successful `removeProducts` the cart_products table holds exactly
the previous links whose product id is not in the list, so a link of any cart to
a listed product is gone, and the products and carts tables are unchanged. -/
theorem C7_removeProducts_by_product_id (db : DB P) (c : Cart P) (ids : List Int)
    (hc : c.CheckedOut = false) (_hex : ∃ row ∈ db.carts, row.id = c.ID) (hids : ids ≠ [])
    (_hok : (c.removeProducts db ids).2.2 = none) :
    (c.removeProducts db ids).1.cart_products =
      db.cart_products.filter (fun l => decide (l.2 ∉ ids)) ∧
    (∀ k pid, pid ∈ ids → (k, pid) ∉ (c.removeProducts db ids).1.cart_products) ∧
    (c.removeProducts db ids).1.products = db.products ∧
    (c.removeProducts db ids).1.carts = db.carts := by
  have hlen : ¬ ids.length = 0 := by
    intro h; exact hids (List.length_eq_zero.mp h)
  have hdb : (c.removeProducts db ids).1 =
      { db with cart_products := db.cart_products.filter (fun l => decide (l.2 ∉ ids)) } := by
    simp [Cart.removeProducts, hc, hlen]
  rw [hdb]
  refine ⟨rfl, ?_, rfl, rfl⟩
  intro k pid hpid hmem
  simp only [List.mem_filter, decide_eq_true_eq] at hmem
  exact hmem.2 hpid

/-- C7, on the sample store: removing product 1 through the open cart 1 also
removes the link of cart 2 to product 1. -/
theorem C7_removeProducts_by_product_id_witness :
    ((⟨1, 10, 10, false, []⟩ : Cart ℚ).removeProducts sampleDB [1]).1.cart_products = [(1, 2)] :=
  (C7_removeProducts_by_product_id sampleDB ⟨1, 10, 10, false, []⟩ [1] rfl
    ⟨⟨1, 10, 10, false⟩, by decide, rfl⟩ (by decide) rfl).1.trans (by decide)

theorem filter_other_cart (links : List (Int × Int)) (cid k : Int) (hk : k ≠ cid) :
    (links.filter (fun l => decide (l.1 ≠ cid))).filter (fun l => decide (l.1 = k)) =
      links.filter (fun l => decide (l.1 = k)) := by
  rw [List.filter_filter]
  apply List.filter_congr
  intro x _
  by_cases hx : x.1 = k
  · simp [hx, hk]
  · simp [hx]

theorem filter_same_cart (links : List (Int × Int)) (cid : Int) :
    (links.filter (fun l => decide (l.1 ≠ cid))).filter (fun l => decide (l.1 = cid)) = [] := by
  rw [List.filter_filter, List.filter_eq_nil_iff]
  intro x _
  by_cases hx : x.1 = cid <;> simp [hx]

/-- After the delete of `clear` the cart has no linked ids, so no products. -/
theorem cleared_links (db db1 : DB P) (cid : Int)
    (h : db1.cart_products = db.cart_products.filter (fun l => decide (l.1 ≠ cid))) :
    linkedIds db1 cid = [] ∧ linkedProducts db1 cid = [] := by
  have h1 : linkedIds db1 cid = [] := by
    simp only [linkedIds, h, filter_same_cart, List.map_nil]
  refine ⟨h1, ?_⟩
  simp only [linkedProducts, h1, List.not_mem_nil, decide_False, List.filter_false]

/-- The result of `clear` on an open cart value whose row exists. -/
theorem clear_open (db : DB P) (c : Cart P) (r : CartRow) (hc : c.CheckedOut = false)
    (hrow : db.carts.find? (fun r => decide (r.id = c.ID)) = some r) :
    c.clear db =
      ({ db with cart_products := db.cart_products.filter (fun l => decide (l.1 ≠ c.ID)) },
       { ID := c.ID, CreatedTimestamp := r.created_timestamp,
         ModificationTimestamp := r.modification_timestamp,
         CheckedOut := r.checked_out, Products := [] }, none) := by
  have hrow1 : List.find? (fun r => decide (r.id = c.ID))
      ({ db with cart_products :=
          db.cart_products.filter (fun l => decide (l.1 ≠ c.ID)) } : DB P).carts = some r := hrow
  simp only [Cart.clear, hc, Bool.not_false, if_true]
  rw [getCart_some _ c r hrow1 (Or.inr (cleared_links db _ c.ID rfl).1),
    (cleared_links db _ c.ID rfl).2]

/-- C8: a successful `clear` on an existing cart value with `CheckedOut = false`
leaves no cart_products row of that cart, leaves the links of every other cart and
the carts and products tables unchanged, sets the value's `Products` to the empty
list, and a following `getCart` for the same id succeeds with an empty list. -/
theorem C8_clear_frame (db : DB P) (c : Cart P)
    (hc : c.CheckedOut = false) (hex : ∃ row ∈ db.carts, row.id = c.ID)
    (_hok : (c.clear db).2.2 = none) :
    linksOf (c.clear db).1 c.ID = [] ∧
    (∀ k, k ≠ c.ID → linksOf (c.clear db).1 k = linksOf db k) ∧
    (c.clear db).1.carts = db.carts ∧
    (c.clear db).1.products = db.products ∧
    (c.clear db).2.1.Products = [] ∧
    (∀ d : Cart P, d.ID = c.ID →
      (d.getCart (c.clear db).1).2 = none ∧ (d.getCart (c.clear db).1).1.Products = []) := by
  obtain ⟨r, hrow⟩ := find_cart_exists hex
  rw [clear_open db c r hc hrow]
  refine ⟨filter_same_cart _ _, ?_, rfl, rfl, rfl, ?_⟩
  · intro k hk
    exact filter_other_cart _ _ _ hk
  · intro d hd
    have hrow1 : List.find? (fun r => decide (r.id = d.ID))
        ({ db with cart_products :=
            db.cart_products.filter (fun l => decide (l.1 ≠ c.ID)) } : DB P).carts = some r := by
      rw [hd]; exact hrow
    have hcl := cleared_links db
      { db with cart_products := db.cart_products.filter (fun l => decide (l.1 ≠ c.ID)) }
      d.ID (by rw [hd])
    rw [getCart_some _ d r hrow1 (Or.inr hcl.1)]
    exact ⟨rfl, hcl.2⟩

/-- C8, on the sample store: clearing the open cart 1, which has two links. -/
theorem C8_clear_frame_witness :
    linksOf ((Cart.ofID 1).clear sampleDB).1 1 = [] ∧
    linksOf ((Cart.ofID 1).clear sampleDB).1 2 = [(2, 1)] ∧
    ((Cart.ofID 1).getCart ((Cart.ofID 1).clear sampleDB).1).2 = none :=
  have h := C8_clear_frame sampleDB (Cart.ofID 1) rfl ⟨⟨1, 10, 10, false⟩, by decide, rfl⟩ rfl
  ⟨h.1, (h.2.1 2 (by decide)).trans (by decide), (h.2.2.2.2.2 (Cart.ofID 1) rfl).1⟩

/-! ## Get-or-create -/

/-- The cart row `createCart` inserts for a value that is not checked out, and the
id it stores in the value; for a value without products there is no error. -/
theorem createCart_open (db : DB P) (c : Cart P) (now : Nat) (hc : c.CheckedOut = false) :
    (c.createCart db now).1.carts =
      db.carts ++ [{ id := db.carts_id_seq, created_timestamp := now,
                     modification_timestamp := now, checked_out := false }] ∧
    (c.createCart db now).1.carts_id_seq = db.carts_id_seq + 1 ∧
    (c.createCart db now).2.1.ID = db.carts_id_seq ∧
    (c.Products = [] → (c.createCart db now).2.2 = none ∧
      (c.createCart db now).1.cart_products = db.cart_products) := by
  simp only [Cart.createCart, hc, Bool.not_false, if_true]
  split
  · rename_i hpos
    have hne : c.Products ≠ [] := List.length_pos.mp hpos
    simp [hne]
  · simp

theorem createCart_checked_out (db : DB P) (c : Cart P) (now : Nat)
    (hc : c.CheckedOut = true) :
    c.createCart db now = (db, c, some .alreadyCheckedOut) := by
  simp [Cart.createCart, hc]

theorem getOrCreate_of_fail (db : DB P) (c : Cart P) (now : Nat) (hid : c.ID ≠ -1)
    (hfail : (c.getCart db).2 ≠ none) :
    c.getOrCreate db now = (c.getCart db).1.createCart db now := by
  cases hg : c.getCart db with
  | mk c1 e =>
    cases e with
    | none => rw [hg] at hfail; exact absurd rfl hfail
    | some err => simp [Cart.getOrCreate, hid, hg]

theorem getOrCreate_of_ok (db : DB P) (c : Cart P) (now : Nat) (hid : c.ID ≠ -1)
    (hok : (c.getCart db).2 = none) :
    c.getOrCreate db now = (db, (c.getCart db).1, none) := by
  cases hg : c.getCart db with
  | mk c1 e =>
    cases e with
    | none => simp [Cart.getOrCreate, hid, hg]
    | some err => rw [hg] at hok; simp at hok

/-- C9, as stated, fails when the read of the products fails after the cart row was
scanned.  Cart 2 is checked out: `getCart` fails with the value's `CheckedOut`
already true, `createCart` refuses, no row is created and the id stays 2, not
the generated 3.  Cart 1 exists and is open: `getCart` fails and a new cart row 3
is created although the id is that of an existing cart. -/
theorem C9_failed_load_of_existing_cart :
    (∃ row ∈ sampleDBReadFails.carts, row.id = 2) ∧
    (Cart.ofID 2 : Cart ℚ).CheckedOut = false ∧
    ((Cart.ofID 2).getCart sampleDBReadFails).2 = some (.driver "driver: bad connection") ∧
    (Cart.ofID 2).getOrCreate sampleDBReadFails 20 =
      (sampleDBReadFails, ⟨2, 11, 12, true, []⟩, some .alreadyCheckedOut) ∧
    sampleDBReadFails.carts_id_seq = 3 ∧
    (∃ row ∈ sampleDBReadFails.carts, row.id = 1) ∧
    ((Cart.ofID 1).getOrCreate sampleDBReadFails 20).1.carts =
      sampleDBReadFails.carts ++ [⟨3, 20, 20, false⟩] ∧
    ((Cart.ofID 1).getOrCreate sampleDBReadFails 20).2.1.ID = 3 := by
  refine ⟨⟨⟨2, 11, 12, true⟩, by decide, rfl⟩, rfl, rfl, rfl, rfl,
    ⟨⟨1, 10, 10, false⟩, by decide, rfl⟩, rfl, rfl⟩

/-- C9, amended: on a cart value with `CheckedOut = false`, `getOrCreate` with the
sentinel id -1 appends exactly one row to the carts table and sets the value's id
to the generated one; with another id for which `getCart` succeeds (as it does
for an existing cart when the store answers the read of the products or the cart
has no links) it loads that cart and leaves the store as it was; when `getCart` fails and leaves the
value not checked out (as it does when no row has the id) it appends one row and
sets the value's id to the generated one, which is the sequence value whatever
id was requested; and when `getCart` fails after it has scanned the row of a
checked-out cart, `createCart` refuses and nothing is created. -/
theorem C9_getOrCreate (db : DB P) (c : Cart P) (now : Nat) (hc : c.CheckedOut = false) :
    (c.ID = -1 →
      (c.getOrCreate db now).1.carts =
        db.carts ++ [{ id := db.carts_id_seq, created_timestamp := now,
                       modification_timestamp := now, checked_out := false }] ∧
      (c.getOrCreate db now).2.1.ID = db.carts_id_seq) ∧
    (c.ID ≠ -1 → (c.getCart db).2 = none →
      ∃ r, db.carts.find? (fun r => decide (r.id = c.ID)) = some r ∧
        c.getOrCreate db now =
          (db, { ID := c.ID, CreatedTimestamp := r.created_timestamp,
                 ModificationTimestamp := r.modification_timestamp,
                 CheckedOut := r.checked_out, Products := linkedProducts db c.ID }, none)) ∧
    ((∃ row ∈ db.carts, row.id = c.ID) →
      (db.products_read_err = none ∨ linkedIds db c.ID = []) → (c.getCart db).2 = none) ∧
    ((c.getCart db).2 ≠ none → (c.getCart db).1.CheckedOut = false →
      (c.getOrCreate db now).1.carts =
        db.carts ++ [{ id := db.carts_id_seq, created_timestamp := now,
                       modification_timestamp := now, checked_out := false }] ∧
      (c.getOrCreate db now).2.1.ID = db.carts_id_seq) ∧
    ((¬ ∃ row ∈ db.carts, row.id = c.ID) →
      (c.getCart db).2 ≠ none ∧ (c.getCart db).1.CheckedOut = false) ∧
    (c.ID ≠ -1 → (c.getCart db).2 ≠ none → (c.getCart db).1.CheckedOut = true →
      c.getOrCreate db now = (db, (c.getCart db).1, some .alreadyCheckedOut)) := by
  have hcreate := createCart_open db c now hc
  refine ⟨?_, ?_, ?_, ?_, ?_, ?_⟩
  · intro hid
    simp only [Cart.getOrCreate, hid, if_true]
    exact ⟨hcreate.1, hcreate.2.2.1⟩
  · intro hid hok
    obtain ⟨r, hrow, hget⟩ := getCart_success db c hok
    refine ⟨r, hrow, ?_⟩
    rw [getOrCreate_of_ok db c now hid hok, hget]
  · intro hex hread
    obtain ⟨r, hrow⟩ := find_cart_exists hex
    rw [getCart_some db c r hrow hread]
  · intro hfail hopen
    by_cases hid : c.ID = -1
    · simp only [Cart.getOrCreate, hid, if_true]
      exact ⟨hcreate.1, hcreate.2.2.1⟩
    · rw [getOrCreate_of_fail db c now hid hfail]
      have h1 := createCart_open db (c.getCart db).1 now hopen
      exact ⟨h1.1, h1.2.2.1⟩
  · intro hno
    rw [getCart_none db c (find_cart_none hno)]
    exact ⟨by simp, hc⟩
  · intro hid hfail hco
    rw [getOrCreate_of_fail db c now hid hfail]
    exact createCart_checked_out db _ now hco

/-- C9, amended, on the sample store: the sentinel and the unknown id 7 both create
cart 3, the known id 2 loads cart 2. -/
theorem C9_getOrCreate_witness :
    ((Cart.ofID (-1)).getOrCreate sampleDB 20).2.1.ID = 3 ∧
    ((Cart.ofID 7).getOrCreate sampleDB 20).2.1.ID = 3 ∧
    ((Cart.ofID 7).getOrCreate sampleDB 20).1.carts = sampleDB.carts ++ [⟨3, 20, 20, false⟩] ∧
    (∃ r, sampleDB.carts.find? (fun r => decide (r.id = 2)) = some r ∧
      (Cart.ofID 2).getOrCreate sampleDB 20 =
        (sampleDB, { ID := 2, CreatedTimestamp := r.created_timestamp,
                     ModificationTimestamp := r.modification_timestamp,
                     CheckedOut := r.checked_out, Products := linkedProducts sampleDB 2 },
          none)) :=
  ⟨((C9_getOrCreate sampleDB (Cart.ofID (-1)) 20 rfl).1 rfl).2,
   ((C9_getOrCreate sampleDB (Cart.ofID 7) 20 rfl).2.2.2.1 (by decide) rfl).2,
   ((C9_getOrCreate sampleDB (Cart.ofID 7) 20 rfl).2.2.2.1 (by decide) rfl).1,
   (C9_getOrCreate sampleDB (Cart.ofID 2) 20 rfl).2.1 (by decide) rfl⟩

/-! ## Product listing -/

/-- C10, at the failing inputs: `strconv.Atoi` accepts a sign, so `count=-1` and
`start=-5` pass the handler's check, `getProducts` is called with the negative
value, and the answer is the 500 of the rejected query, not 400; a value that is
not an integer at all is answered with 400. -/
theorem C10_negative_pagination_not_400 (db : DB P) :
    Atoi "-1" = .ok (-1) ∧ Atoi "-5" = .ok (-5) ∧
    App.getProductsHandler db "-1" "" =
      respondWithError 500 "pq: LIMIT must not be negative" ∧
    App.getProductsHandler db "" "-5" =
      respondWithError 500 "pq: OFFSET must not be negative" ∧
    (App.getProductsHandler db "-1" "").code ≠ 400 ∧
    (App.getProductsHandler db "" "-5").code ≠ 400 ∧
    (App.getProductsHandler db "x" "").code = 400 := by
  have h1 : Atoi "-1" = .ok (-1) := rfl
  have h5 : Atoi "-5" = .ok (-5) := rfl
  have hx : Atoi "x" = .error .ErrSyntax := rfl
  have e1 : App.getProductsHandler db "-1" "" =
      respondWithError 500 "pq: LIMIT must not be negative" := by
    simp only [App.getProductsHandler, h1, getProducts]
    simp [Err.Error]
  have e5 : App.getProductsHandler db "" "-5" =
      respondWithError 500 "pq: OFFSET must not be negative" := by
    simp only [App.getProductsHandler, h5, getProducts]
    simp [Err.Error]
  refine ⟨h1, h5, e1, e5, ?_, ?_, ?_⟩
  · rw [e1]; simp [respondWithError]
  · rw [e5]; simp [respondWithError]
  · simp [App.getProductsHandler, hx, respondWithError]
